import Mathlib

/-!
Verification of the snap-gpx-track-to-wpts core against its specification.

The source (`src/snap_gpx_track_to_wpts/cli.py`) is embedded shallowly:

* Python floats are modelled by exact rationals `ℚ`; `float("inf")` is `⊤` in
  `WithTop ℚ`.
* The transcendental functions taken from Python's `math` library
  (`sin`, `cos`, `asin`, `sqrt`, `pi`) are parameters of the embedding,
  bundled in a `MathFns` record.  Every structural theorem below is proved
  for an arbitrary instantiation, so it holds in particular for the maps the
  floating-point library actually computes.  Analytic facts about the
  distance metric are proved for the real-number instantiation
  (`Real.sin`, `Real.cos`, `Real.arcsin`, `Real.sqrt`, `Real.pi`).
* GPX points are records of latitude/longitude plus the non-positional
  attributes (elevation, time, opaque extension data) carried by
  `gpxpy.gpx.GPXTrackPoint`; `copy.deepcopy` of a point is the identity on
  such immutable record values.
* Python list mutation (`list.insert`, index assignment) becomes pure list
  surgery (`py_insert`, `List.set`), and the `for` loops accumulating a best
  candidate become `List.foldl` over `List.range`, exactly mirroring
  `for i in range(...)` in the source.
* Python's stable `list.sort(key=..., reverse=True)` is modelled by
  `List.insertionSort` with the decidable total relation `insOrder`
  (descending by insertion index), which is likewise stable.
-/

namespace GpxSnap

/-- The transcendental functions the source imports from Python's `math`
module, as parameters of the embedding. -/
structure MathFns (α : Type) where
  sin : α → α
  cos : α → α
  asin : α → α
  sqrt : α → α
  pi : α

/-- `math.radians` : degrees to radians. -/
def radians {α : Type} [Field α] (F : MathFns α) (x : α) : α :=
  x * F.pi / 180

/-- `EARTH_RADIUS = 6_371_000` meters. -/
def EARTH_RADIUS {α : Type} [Field α] : α := 6371000

/-- `haversine(lat1, lon1, lat2, lon2)` — distance in meters between two
lat/lon points (verbatim from the source). -/
def haversine {α : Type} [Field α] (F : MathFns α) (lat1 lon1 lat2 lon2 : α) : α :=
  let rlat1 := radians F lat1
  let rlon1 := radians F lon1
  let rlat2 := radians F lat2
  let rlon2 := radians F lon2
  let dlat := rlat2 - rlat1
  let dlon := rlon2 - rlon1
  let a := F.sin (dlat / 2) ^ 2 + F.cos rlat1 * F.cos rlat2 * F.sin (dlon / 2) ^ 2
  2 * EARTH_RADIUS * F.asin (F.sqrt a)

/-- A `gpxpy.gpx.GPXTrackPoint`: latitude/longitude plus the non-positional
attributes (elevation, time and opaque extension payload). -/
structure GPXPoint where
  latitude : ℚ
  longitude : ℚ
  elevation : Option ℚ
  time : Option ℚ
  ext : List String
deriving DecidableEq

instance : Inhabited GPXPoint := ⟨⟨0, 0, none, none, []⟩⟩

/-- A GPX track segment: an ordered list of points. -/
structure GPXSegment where
  points : List GPXPoint
deriving DecidableEq

/-- A GPX track: an ordered list of segments. -/
structure GPXTrack where
  segments : List GPXSegment
deriving DecidableEq

/-- The parsed GPX document: tracks and waypoints. -/
structure GPXData where
  tracks : List GPXTrack
  waypoints : List GPXPoint
deriving DecidableEq

/-- `project_onto_segment(wlat, wlon, alat, alon, blat, blon)` — project W
onto segment AB in a local equirectangular frame (verbatim from the source).
Returns `(projected_lat, projected_lon, t)`. -/
def project_onto_segment (F : MathFns ℚ) (wlat wlon alat alon blat blon : ℚ) :
    ℚ × ℚ × ℚ :=
  let cos_lat := F.cos (radians F ((alat + blat) / 2))
  let ax := alon * cos_lat
  let ay := alat
  let bx := blon * cos_lat
  let by_ := blat
  let wx := wlon * cos_lat
  let wy := wlat
  let dx := bx - ax
  let dy := by_ - ay
  let len_sq := dx * dx + dy * dy
  if len_sq = 0 then (alat, alon, 0)
  else
    let t := ((wx - ax) * dx + (wy - ay) * dy) / len_sq
    let t := max 0 (min 1 t)
    (alat + t * (blat - alat), alon + t * (blon - alon), t)

/-- The tuple returned by `find_closest_on_segment`:
`(min_dist, seg_idx, projected_lat, projected_lon, t, vertex_idx)`. -/
structure SegMatch where
  dist : WithTop ℚ
  seg_idx : ℕ
  plat : ℚ
  plon : ℚ
  t : ℚ
  vertex_idx : Option ℕ
deriving DecidableEq

/-- The vertex-coincidence classification at the end of
`find_closest_on_segment` (source lines 89–106): `TOLERANCE = 0.05` meters,
parameter thresholds `1e-9`. -/
def classify_vertex (F : MathFns ℚ) (points : List GPXPoint) (seg_idx : ℕ)
    (plat plon t : ℚ) : Option ℕ :=
  if t < 1e-9 then some seg_idx
  else if t > 1 - 1e-9 then some (seg_idx + 1)
  else
    let pa := points.getD seg_idx default
    let pb := points.getD (seg_idx + 1) default
    let d_a := haversine F plat plon pa.latitude pa.longitude
    let d_b := haversine F plat plon pb.latitude pb.longitude
    if d_a < 0.05 then some seg_idx
    else if d_b < 0.05 then some (seg_idx + 1)
    else none

/-- Pack the running best `(best_dist, best_seg_idx, best_plat, best_plon,
best_t)` together with its vertex classification into the result tuple. -/
def finish_classify (F : MathFns ℚ) (points : List GPXPoint)
    (best : WithTop ℚ × ℕ × ℚ × ℚ × ℚ) : SegMatch :=
  ⟨best.1, best.2.1, best.2.2.1, best.2.2.2.1, best.2.2.2.2,
    classify_vertex F points best.2.1 best.2.2.1 best.2.2.2.1 best.2.2.2.2⟩

/-- The body of the `for i in range(len(points) - 1)` loop of
`find_closest_on_segment`. -/
def scan_step (F : MathFns ℚ) (w : GPXPoint) (points : List GPXPoint)
    (best : WithTop ℚ × ℕ × ℚ × ℚ × ℚ) (i : ℕ) : WithTop ℚ × ℕ × ℚ × ℚ × ℚ :=
  let a := points.getD i default
  let b := points.getD (i + 1) default
  let pr := project_onto_segment F w.latitude w.longitude
    a.latitude a.longitude b.latitude b.longitude
  let d : WithTop ℚ := ((haversine F w.latitude w.longitude pr.1 pr.2.1 : ℚ) : WithTop ℚ)
  if d < best.1 then (d, i, pr.1, pr.2.1, pr.2.2) else best

/-- `find_closest_on_segment(wpt, segment)` (verbatim from the source):
scan every edge, keep the minimum-distance projection, then check a
single-point segment directly, then classify vertex coincidence. -/
def find_closest_on_segment (F : MathFns ℚ) (w : GPXPoint)
    (points : List GPXPoint) : SegMatch :=
  if points.isEmpty then ⟨⊤, 0, 0, 0, 0, none⟩
  else
    let best := (List.range (points.length - 1)).foldl (scan_step F w points)
      (⊤, 0, 0, 0, 0)
    match points with
    | [p] =>
      let d : WithTop ℚ :=
        ((haversine F w.latitude w.longitude p.latitude p.longitude : ℚ) : WithTop ℚ)
      if d < best.1 then ⟨d, 0, p.latitude, p.longitude, 0, some 0⟩
      else finish_classify F points best
    | _ => finish_classify F points best

/-- The body of the `for i, pt in enumerate(segment.points)` loop of
`find_closest_vertex`. -/
def vertex_step (F : MathFns ℚ) (w : GPXPoint) (points : List GPXPoint)
    (best : WithTop ℚ × ℕ) (i : ℕ) : WithTop ℚ × ℕ :=
  let pt := points.getD i default
  let d : WithTop ℚ :=
    ((haversine F w.latitude w.longitude pt.latitude pt.longitude : ℚ) : WithTop ℚ)
  if d < best.1 then (d, i) else best

/-- `find_closest_vertex(wpt, segment)` — returns `(min_dist, vertex_idx)`
(verbatim from the source). -/
def find_closest_vertex (F : MathFns ℚ) (w : GPXPoint)
    (points : List GPXPoint) : WithTop ℚ × ℕ :=
  (List.range points.length).foldl (vertex_step F w points) (⊤, 0)

/-- `make_bare_point(lat, lon)` — a track point with only lat/lon. -/
def make_bare_point (lat lon : ℚ) : GPXPoint :=
  ⟨lat, lon, none, none, []⟩

/-- `duplicate_point(pt)` — `copy.deepcopy`: a full field-wise copy, which on
immutable record values is the value itself. -/
def duplicate_point (pt : GPXPoint) : GPXPoint := pt

/-- `list.insert(idx, x)` of Python: insert before position `idx`,
clamping `idx` to the length (appending when `idx ≥ len`). -/
def py_insert {α : Type} (l : List α) (idx : ℕ) (x : α) : List α :=
  l.take idx ++ x :: l.drop idx

/-- The per-waypoint body of the `add` loop (source lines 146–168): compute
the closest match and either skip the waypoint (`dist > maxdist`) or record
the `(insert_index, points_to_insert)` pair against the original points. -/
def add_insertion_for (F : MathFns ℚ) (maxdist : ℚ) (points : List GPXPoint)
    (w : GPXPoint) : Option (ℕ × List GPXPoint) :=
  let r := find_closest_on_segment F w points
  if r.dist > (maxdist : WithTop ℚ) then none
  else
    match r.vertex_idx with
    | some vi =>
      let orig := points.getD vi default
      let dup := duplicate_point orig
      let wpt_pt := make_bare_point w.latitude w.longitude
      some (vi + 1, [wpt_pt, dup])
    | none =>
      let proj := make_bare_point r.plat r.plon
      let proj_dup := make_bare_point r.plat r.plon
      let wpt_pt := make_bare_point w.latitude w.longitude
      some (r.seg_idx + 1, [proj, wpt_pt, proj_dup])

/-- The ordering used by `insertions.sort(key=lambda x: x[0], reverse=True)`:
descending by insertion index. -/
def insOrder (a b : ℕ × List GPXPoint) : Prop := b.1 ≤ a.1

instance : DecidableRel insOrder :=
  fun a b => (inferInstance : Decidable (b.1 ≤ a.1))

instance : IsTotal (ℕ × List GPXPoint) insOrder :=
  ⟨fun a b => Nat.le_total b.1 a.1⟩

instance : IsTrans (ℕ × List GPXPoint) insOrder :=
  ⟨fun _ _ _ hab hbc => Nat.le_trans hbc hab⟩

/-- All insertions collected for one segment, sorted in reverse order of
index (the collected list, then Python's stable descending sort). -/
def sorted_insertions (F : MathFns ℚ) (waypoints : List GPXPoint)
    (maxdist : ℚ) (points : List GPXPoint) : List (ℕ × List GPXPoint) :=
  List.insertionSort insOrder (waypoints.filterMap (add_insertion_for F maxdist points))

/-- `for idx, pts in insertions: for p in reversed(pts): points.insert(idx, p)` -/
def apply_insertions (points : List GPXPoint)
    (insertions : List (ℕ × List GPXPoint)) : List GPXPoint :=
  insertions.foldl
    (fun ps e => e.2.reverse.foldl (fun ps2 p => py_insert ps2 e.1 p) ps) points

/-- The whole per-segment pass of `process_add`. -/
def process_add_segment (F : MathFns ℚ) (waypoints : List GPXPoint)
    (maxdist : ℚ) (points : List GPXPoint) : List GPXPoint :=
  apply_insertions points (sorted_insertions F waypoints maxdist points)

/-- `process_add(gpx_data, maxdist)` — all waypoints in `add` mode. -/
def process_add (F : MathFns ℚ) (gpx : GPXData) (maxdist : ℚ) : GPXData :=
  if gpx.waypoints.isEmpty then gpx
  else
    { gpx with
      tracks := gpx.tracks.map fun tr =>
        { tr with
          segments := tr.segments.map fun s =>
            { s with points := process_add_segment F gpx.waypoints maxdist s.points } } }

/-- The per-waypoint body of the `move` loop (source lines 185–190):
find the closest vertex, skip if beyond `maxdist`, otherwise overwrite its
latitude and longitude with the waypoint's coordinates. -/
def process_move_step (F : MathFns ℚ) (maxdist : ℚ) (points : List GPXPoint)
    (w : GPXPoint) : List GPXPoint :=
  let r := find_closest_vertex F w points
  if r.1 > (maxdist : WithTop ℚ) then points
  else
    points.set r.2
      { points.getD r.2 default with latitude := w.latitude, longitude := w.longitude }

/-- The whole per-segment pass of `process_move`. -/
def process_move_segment (F : MathFns ℚ) (waypoints : List GPXPoint)
    (maxdist : ℚ) (points : List GPXPoint) : List GPXPoint :=
  waypoints.foldl (process_move_step F maxdist) points

/-- `process_move(gpx_data, maxdist)` — all waypoints in `move` mode. -/
def process_move (F : MathFns ℚ) (gpx : GPXData) (maxdist : ℚ) : GPXData :=
  if gpx.waypoints.isEmpty then gpx
  else
    { gpx with
      tracks := gpx.tracks.map fun tr =>
        { tr with
          segments := tr.segments.map fun s =>
            { s with points := process_move_segment F gpx.waypoints maxdist s.points } } }

/-- The real-number instantiation of the math-library parameters: the ideal
semantics of `math.sin`, `math.cos`, `math.asin`, `math.sqrt`, `math.pi`. -/
noncomputable def realFns : MathFns ℝ :=
  ⟨Real.sin, Real.cos, Real.arcsin, Real.sqrt, Real.pi⟩

/-- The haversine distance with ideal real-number trigonometry. -/
noncomputable def haversineR (lat1 lon1 lat2 lon2 : ℝ) : ℝ :=
  haversine realFns lat1 lon1 lat2 lon2

/-- A concrete rational instantiation of the math-library parameters, used
only to evaluate the embedding on explicit inputs in witnesses. -/
def sampleFns : MathFns ℚ :=
  ⟨fun x => x, fun _ => 1, fun x => x, fun x => x, 3⟩

/-- Sample point constructor for concrete witness inputs. -/
def pnt (lat lon : ℚ) : GPXPoint := ⟨lat, lon, none, none, []⟩

/-! ### Helper lemmas about the embedded functions -/

lemma find_closest_on_segment_nil (F : MathFns ℚ) (w : GPXPoint) :
    find_closest_on_segment F w [] = ⟨⊤, 0, 0, 0, 0, none⟩ := rfl

lemma find_closest_on_segment_single (F : MathFns ℚ) (w p : GPXPoint) :
    find_closest_on_segment F w [p] =
      ⟨((haversine F w.latitude w.longitude p.latitude p.longitude : ℚ) : WithTop ℚ),
        0, p.latitude, p.longitude, 0, some 0⟩ := by
  simp only [find_closest_on_segment, List.isEmpty_cons, Bool.false_eq_true, if_false,
    List.length_cons, List.length_nil, Nat.zero_add, Nat.sub_self, List.range_zero,
    List.foldl_nil]
  rw [if_pos (WithTop.coe_lt_top _)]

lemma find_closest_on_segment_cons_cons (F : MathFns ℚ) (w a b : GPXPoint)
    (rest : List GPXPoint) :
    find_closest_on_segment F w (a :: b :: rest) =
      finish_classify F (a :: b :: rest)
        ((List.range ((a :: b :: rest).length - 1)).foldl
          (scan_step F w (a :: b :: rest)) (⊤, 0, 0, 0, 0)) := rfl

lemma find_closest_vertex_nil (F : MathFns ℚ) (w : GPXPoint) :
    find_closest_vertex F w [] = (⊤, 0) := rfl

lemma foldl_scan_step_idx_lt (F : MathFns ℚ) (w : GPXPoint) (points : List GPXPoint)
    (n : ℕ) :
    ∀ (l : List ℕ) (st : WithTop ℚ × ℕ × ℚ × ℚ × ℚ), (∀ i ∈ l, i < n) → st.2.1 < n →
      (l.foldl (scan_step F w points) st).2.1 < n := by
  intro l
  induction l with
  | nil => intro st _ hst; exact hst
  | cons i l ih =>
    intro st hl hst
    refine ih _ (fun j hj => hl j (List.mem_cons_of_mem _ hj)) ?_
    simp only [scan_step]
    split
    · exact hl i (List.mem_cons_self _ _)
    · exact hst

lemma find_closest_on_segment_seg_idx_lt (F : MathFns ℚ) (w : GPXPoint)
    (a b : GPXPoint) (rest : List GPXPoint) :
    (find_closest_on_segment F w (a :: b :: rest)).seg_idx + 1 <
      (a :: b :: rest).length := by
  rw [find_closest_on_segment_cons_cons]
  have h := foldl_scan_step_idx_lt F w (a :: b :: rest) ((a :: b :: rest).length - 1)
    (List.range ((a :: b :: rest).length - 1)) (⊤, 0, 0, 0, 0)
    (fun i hi => List.mem_range.mp hi) (by simp)
  simp only [finish_classify]
  have key : ∀ x n : ℕ, x < n - 1 → x + 1 < n := by intro x n hx; omega
  exact key _ _ h

lemma foldl_vertex_step_idx_lt (F : MathFns ℚ) (w : GPXPoint) (points : List GPXPoint)
    (n : ℕ) :
    ∀ (l : List ℕ) (st : WithTop ℚ × ℕ), (∀ i ∈ l, i < n) → st.2 < n →
      (l.foldl (vertex_step F w points) st).2 < n := by
  intro l
  induction l with
  | nil => intro st _ hst; exact hst
  | cons i l ih =>
    intro st hl hst
    refine ih _ (fun j hj => hl j (List.mem_cons_of_mem _ hj)) ?_
    simp only [vertex_step]
    split
    · exact hl i (List.mem_cons_self _ _)
    · exact hst

lemma find_closest_vertex_idx_lt (F : MathFns ℚ) (w : GPXPoint)
    (points : List GPXPoint) (h : points ≠ []) :
    (find_closest_vertex F w points).2 < points.length := by
  have hlen : 0 < points.length := List.length_pos.mpr h
  exact foldl_vertex_step_idx_lt F w points points.length
    (List.range points.length) (⊤, 0) (fun i hi => List.mem_range.mp hi) hlen

lemma classify_vertex_eq_some (F : MathFns ℚ) (points : List GPXPoint)
    (si : ℕ) (plat plon t : ℚ) (v : ℕ)
    (h : classify_vertex F points si plat plon t = some v) :
    v = si ∨ v = si + 1 := by
  simp only [classify_vertex] at h
  split_ifs at h <;> simp_all

lemma find_closest_on_segment_vertex_idx_lt (F : MathFns ℚ) (w : GPXPoint)
    (points : List GPXPoint) (v : ℕ)
    (h : (find_closest_on_segment F w points).vertex_idx = some v) :
    v < points.length := by
  match points with
  | [] => rw [find_closest_on_segment_nil] at h; exact absurd h (by simp)
  | [p] =>
    rw [find_closest_on_segment_single] at h
    simp only [Option.some.injEq] at h
    simp [← h]
  | a :: b :: rest =>
    rw [find_closest_on_segment_cons_cons] at h
    simp only [finish_classify] at h
    have hb := foldl_scan_step_idx_lt F w (a :: b :: rest) ((a :: b :: rest).length - 1)
      (List.range ((a :: b :: rest).length - 1)) (⊤, 0, 0, 0, 0)
      (fun i hi => List.mem_range.mp hi) (by simp)
    have key : ∀ x n v : ℕ, x < n - 1 → (v = x ∨ v = x + 1) → v < n := by
      intro x n v hx hv; omega
    exact key _ _ _ hb (classify_vertex_eq_some _ _ _ _ _ _ _ h)

lemma sublist_py_insert {α : Type} (l : List α) (k : ℕ) (x : α) :
    l.Sublist (py_insert l k x) := by
  unfold py_insert
  conv_lhs => rw [← List.take_append_drop k l]
  exact (List.sublist_cons_self x (l.drop k)).append_left (l.take k)

lemma sublist_foldl_py_insert {α : Type} (k : ℕ) :
    ∀ (pts l : List α), l.Sublist (pts.foldl (fun ps p => py_insert ps k p) l) := by
  intro pts
  induction pts with
  | nil => intro l; exact List.Sublist.refl l
  | cons x xs ih =>
    intro l
    simp only [List.foldl_cons]
    exact (sublist_py_insert l k x).trans (ih (py_insert l k x))

lemma sublist_apply_insertions :
    ∀ (ins : List (ℕ × List GPXPoint)) (l : List GPXPoint),
      l.Sublist (apply_insertions l ins) := by
  intro ins
  induction ins with
  | nil => intro l; exact List.Sublist.refl l
  | cons e es ih =>
    intro l
    simp only [apply_insertions, List.foldl_cons]
    exact (sublist_foldl_py_insert e.1 e.2.reverse l).trans (ih _)

lemma foldl_py_insert_block {α : Type} (k : ℕ) :
    ∀ (pts l : List α), k ≤ l.length →
      pts.foldl (fun ps p => py_insert ps k p) l =
        l.take k ++ pts.reverse ++ l.drop k := by
  intro pts
  induction pts with
  | nil => intro l hk; simp [List.take_append_drop]
  | cons x xs ih =>
    intro l hk
    have hlen : (l.take k).length = k := by
      rw [List.length_take]; omega
    simp only [List.foldl_cons]
    rw [ih (py_insert l k x) (by unfold py_insert; simp; omega)]
    unfold py_insert
    rw [List.take_left' hlen, List.drop_left' hlen]
    simp [List.append_assoc]

lemma apply_insertions_single (l : List GPXPoint) (k : ℕ) (pts : List GPXPoint)
    (hk : k ≤ l.length) :
    apply_insertions l [(k, pts)] = l.take k ++ pts ++ l.drop k := by
  simp only [apply_insertions, List.foldl_cons, List.foldl_nil]
  rw [foldl_py_insert_block k pts.reverse l hk, List.reverse_reverse]

lemma forall₂_map_self {α β : Type} (r : α → β → Prop) (f : α → β) :
    ∀ (l : List α), (∀ a ∈ l, r a (f a)) → List.Forall₂ r l (l.map f) := by
  intro l
  induction l with
  | nil => intro _; simp
  | cons x xs ih =>
    intro h
    simp only [List.map_cons]
    exact List.Forall₂.cons (h x (List.mem_cons_self _ _))
      (ih fun a ha => h a (List.mem_cons_of_mem _ ha))

lemma process_move_step_nil (F : MathFns ℚ) (maxdist : ℚ) (w : GPXPoint) :
    process_move_step F maxdist [] w = [] := by
  unfold process_move_step
  rw [find_closest_vertex_nil]
  exact if_pos (WithTop.coe_lt_top maxdist)

/-! ### Claim theorems -/

/-- C5: For every point `w` and segment endpoints `a`, `b`, the projector
returns a parameter `t ∈ [0,1]` and a projected point that is the linear
interpolation of `a`'s and `b`'s original (unscaled) coordinates at `t`;
if `a` and `b` coincide, it returns `a`'s coordinates with `t = 0`. -/
theorem claim5_projector_contract (F : MathFns ℚ) (wlat wlon alat alon blat blon : ℚ) :
    (0 ≤ (project_onto_segment F wlat wlon alat alon blat blon).2.2 ∧
      (project_onto_segment F wlat wlon alat alon blat blon).2.2 ≤ 1 ∧
      (project_onto_segment F wlat wlon alat alon blat blon).1 =
        alat + (project_onto_segment F wlat wlon alat alon blat blon).2.2 * (blat - alat) ∧
      (project_onto_segment F wlat wlon alat alon blat blon).2.1 =
        alon + (project_onto_segment F wlat wlon alat alon blat blon).2.2 * (blon - alon)) ∧
    project_onto_segment F wlat wlon alat alon alat alon = (alat, alon, 0) := by
  constructor
  · simp only [project_onto_segment]
    split
    · norm_num
    · exact ⟨le_max_left _ _, max_le (by norm_num) (min_le_left _ _), rfl, rfl⟩
  · simp only [project_onto_segment]
    simp [sub_self]

/-- C9: `closestOnTrack` on a segment with zero points returns an infinite
distance; on a segment with exactly one point it returns that point's
distance and coordinates directly (the point is checked itself, not via an
edge). -/
theorem claim9_empty_and_single_segment (F : MathFns ℚ) (w p : GPXPoint) :
    find_closest_on_segment F w [] = ⟨⊤, 0, 0, 0, 0, none⟩ ∧
    find_closest_on_segment F w [p] =
      ⟨((haversine F w.latitude w.longitude p.latitude p.longitude : ℚ) : WithTop ℚ),
        0, p.latitude, p.longitude, 0, some 0⟩ :=
  ⟨find_closest_on_segment_nil F w, find_closest_on_segment_single F w p⟩

/-- C10: on a segment with zero points `closestVertex` returns an infinite
distance with index 0, so a move-mode run (for any finite `maxdist`) skips
every waypoint and leaves the empty segment empty. -/
theorem claim10_empty_segment_move_safe (F : MathFns ℚ) (w : GPXPoint) (maxdist : ℚ)
    (waypoints : List GPXPoint) :
    find_closest_vertex F w [] = (⊤, 0) ∧
    process_move_step F maxdist [] w = [] ∧
    process_move_segment F waypoints maxdist [] = [] := by
  refine ⟨find_closest_vertex_nil F w, process_move_step_nil F maxdist w, ?_⟩
  induction waypoints with
  | nil => rfl
  | cons x xs ih =>
    simp only [process_move_segment, List.foldl_cons] at ih ⊢
    rw [process_move_step_nil]
    exact ih

/-- C8: a waypoint whose closest-match distance to a segment exceeds
`maxdist` leaves the segment completely unchanged in both add mode and move
mode — it is silently skipped for that segment. -/
theorem claim8_far_waypoint_skipped (F : MathFns ℚ) (maxdist : ℚ)
    (points : List GPXPoint) (w : GPXPoint) :
    ((find_closest_on_segment F w points).dist > (maxdist : WithTop ℚ) →
      add_insertion_for F maxdist points w = none ∧
      process_add_segment F [w] maxdist points = points) ∧
    ((find_closest_vertex F w points).1 > (maxdist : WithTop ℚ) →
      process_move_step F maxdist points w = points) := by
  constructor
  · intro h
    have hins : add_insertion_for F maxdist points w = none := by
      simp only [add_insertion_for]
      rw [if_pos h]
    refine ⟨hins, ?_⟩
    simp [process_add_segment, sorted_insertions, List.filterMap_cons, hins,
      apply_insertions, List.insertionSort]
  · intro h
    simp only [process_move_step]
    rw [if_pos h]

/-- Witness for C8: a concrete far-away waypoint, evaluated on the sample
instantiation of the math functions. -/
theorem claim8_far_waypoint_skipped_witness :
    (find_closest_on_segment sampleFns (pnt 0 1) [pnt 0 0]).dist > ((1 : ℚ) : WithTop ℚ) ∧
    (find_closest_vertex sampleFns (pnt 0 1) [pnt 0 0]).1 > ((1 : ℚ) : WithTop ℚ) ∧
    (add_insertion_for sampleFns 1 [pnt 0 0] (pnt 0 1) = none ∧
      process_add_segment sampleFns [pnt 0 1] 1 [pnt 0 0] = [pnt 0 0]) ∧
    process_move_step sampleFns 1 [pnt 0 0] (pnt 0 1) = [pnt 0 0] := by
  have hval : haversine sampleFns (pnt 0 1).latitude (pnt 0 1).longitude
      (pnt 0 0).latitude (pnt 0 0).longitude = 31855 / 36 := by
    norm_num [haversine, radians, sampleFns, EARTH_RADIUS, pnt]
  have h1 : (find_closest_on_segment sampleFns (pnt 0 1) [pnt 0 0]).dist >
      ((1 : ℚ) : WithTop ℚ) := by
    rw [find_closest_on_segment_single, hval]
    show ((31855 / 36 : ℚ) : WithTop ℚ) > ((1 : ℚ) : WithTop ℚ)
    exact_mod_cast (by norm_num : (1 : ℚ) < 31855 / 36)
  have h2 : (find_closest_vertex sampleFns (pnt 0 1) [pnt 0 0]).1 >
      ((1 : ℚ) : WithTop ℚ) := by
    have hfv : find_closest_vertex sampleFns (pnt 0 1) [pnt 0 0] =
        (((31855 / 36 : ℚ) : WithTop ℚ), 0) := by
      norm_num [find_closest_vertex, vertex_step, haversine, radians, sampleFns,
        EARTH_RADIUS, pnt, List.range_succ]
    rw [hfv]
    show ((31855 / 36 : ℚ) : WithTop ℚ) > ((1 : ℚ) : WithTop ℚ)
    exact_mod_cast (by norm_num : (1 : ℚ) < 31855 / 36)
  exact ⟨h1, h2, (claim8_far_waypoint_skipped sampleFns 1 [pnt 0 0] (pnt 0 1)).1 h1,
    (claim8_far_waypoint_skipped sampleFns 1 [pnt 0 0] (pnt 0 1)).2 h2⟩

/-- C2: after an add-mode run, every segment's original vertices all remain
present in their original relative order (the original point list is a
sublist of the new one, only new points are interleaved); the insertions are
computed against the original unmodified point sequence and applied in
descending order of insertion index. -/
theorem claim2_add_preserves_order (F : MathFns ℚ) (gpx : GPXData) (maxdist : ℚ) :
    List.Forall₂ (fun tr tr' : GPXTrack =>
      List.Forall₂ (fun s s' : GPXSegment =>
        s.points.Sublist s'.points ∧
        List.Sorted insOrder (sorted_insertions F gpx.waypoints maxdist s.points) ∧
        s'.points = apply_insertions s.points
          (sorted_insertions F gpx.waypoints maxdist s.points))
        tr.segments tr'.segments)
      gpx.tracks (process_add F gpx maxdist).tracks := by
  unfold process_add
  split
  · rename_i hemp
    have hwp : gpx.waypoints = [] := List.isEmpty_iff.mp hemp
    rw [List.forall₂_same]
    intro tr _
    rw [List.forall₂_same]
    intro s _
    refine ⟨List.Sublist.refl _, List.sorted_insertionSort _ _, ?_⟩
    rw [hwp]
    rfl
  · refine forall₂_map_self _ _ _ (fun tr _ => ?_)
    refine forall₂_map_self _ _ _ (fun s _ => ?_)
    exact ⟨sublist_apply_insertions _ _, List.sorted_insertionSort _ _, rfl⟩

/-- C1: in add mode, for a waypoint whose closest match on a segment is
within `maxdist`: if the match coincides with an existing vertex `V`, the
points inserted immediately after `V` are exactly a bare point with the
waypoint's coordinates followed by a full field-wise duplicate of `V`; if
the match falls strictly between vertices at edge index `i`, the points
inserted immediately after `points[i]` are exactly three bare points:
projected coordinates, waypoint coordinates, projected coordinates again. -/
theorem claim1_add_insertion_content (F : MathFns ℚ) (maxdist : ℚ)
    (points : List GPXPoint) (w : GPXPoint)
    (hd : (find_closest_on_segment F w points).dist ≤ (maxdist : WithTop ℚ)) :
    (∀ v, (find_closest_on_segment F w points).vertex_idx = some v →
      process_add_segment F [w] maxdist points =
        points.take (v + 1) ++
          [make_bare_point w.latitude w.longitude,
            duplicate_point (points.getD v default)] ++
          points.drop (v + 1)) ∧
    ((find_closest_on_segment F w points).vertex_idx = none →
      process_add_segment F [w] maxdist points =
        points.take ((find_closest_on_segment F w points).seg_idx + 1) ++
          [make_bare_point (find_closest_on_segment F w points).plat
              (find_closest_on_segment F w points).plon,
            make_bare_point w.latitude w.longitude,
            make_bare_point (find_closest_on_segment F w points).plat
              (find_closest_on_segment F w points).plon] ++
          points.drop ((find_closest_on_segment F w points).seg_idx + 1)) := by
  have hne : points ≠ [] := by
    intro hnil
    rw [hnil, find_closest_on_segment_nil] at hd
    exact WithTop.coe_ne_top (top_le_iff.mp hd)
  have hnot : ¬ ((find_closest_on_segment F w points).dist > (maxdist : WithTop ℚ)) :=
    not_lt.mpr hd
  constructor
  · intro v hv
    have hvlt : v < points.length :=
      find_closest_on_segment_vertex_idx_lt F w points v hv
    have hins : add_insertion_for F maxdist points w =
        some (v + 1, [make_bare_point w.latitude w.longitude,
          duplicate_point (points.getD v default)]) := by
      simp only [add_insertion_for]
      rw [if_neg hnot, hv]
    have heq : process_add_segment F [w] maxdist points =
        apply_insertions points [(v + 1, [make_bare_point w.latitude w.longitude,
          duplicate_point (points.getD v default)])] := by
      simp [process_add_segment, sorted_insertions, List.filterMap_cons, hins,
        List.insertionSort, List.orderedInsert]
    rw [heq, apply_insertions_single _ _ _ (Nat.succ_le_of_lt hvlt)]
  · intro hv
    match points, hne with
    | [p], _ =>
      rw [find_closest_on_segment_single] at hv
      exact absurd hv (by simp)
    | a :: b :: rest, _ =>
      have hseg := find_closest_on_segment_seg_idx_lt F w a b rest
      have hins : add_insertion_for F maxdist (a :: b :: rest) w =
          some ((find_closest_on_segment F w (a :: b :: rest)).seg_idx + 1,
            [make_bare_point (find_closest_on_segment F w (a :: b :: rest)).plat
                (find_closest_on_segment F w (a :: b :: rest)).plon,
              make_bare_point w.latitude w.longitude,
              make_bare_point (find_closest_on_segment F w (a :: b :: rest)).plat
                (find_closest_on_segment F w (a :: b :: rest)).plon]) := by
        simp only [add_insertion_for]
        rw [if_neg hnot, hv]
      have heq : process_add_segment F [w] maxdist (a :: b :: rest) =
          apply_insertions (a :: b :: rest)
            [((find_closest_on_segment F w (a :: b :: rest)).seg_idx + 1,
              [make_bare_point (find_closest_on_segment F w (a :: b :: rest)).plat
                  (find_closest_on_segment F w (a :: b :: rest)).plon,
                make_bare_point w.latitude w.longitude,
                make_bare_point (find_closest_on_segment F w (a :: b :: rest)).plat
                  (find_closest_on_segment F w (a :: b :: rest)).plon])] := by
        simp [process_add_segment, sorted_insertions, List.filterMap_cons, hins,
          List.insertionSort, List.orderedInsert]
      rw [heq, apply_insertions_single _ _ _ (Nat.le_of_lt hseg)]

/-- Witness for C1: a waypoint between the two vertices of a concrete
segment, within `maxdist`, evaluated on the sample instantiation. -/
theorem claim1_add_insertion_content_witness :
    (find_closest_on_segment sampleFns (pnt 0 (1/2)) [pnt 0 0, pnt 0 1]).dist ≤
      ((100 : ℚ) : WithTop ℚ) ∧
    ((∀ v, (find_closest_on_segment sampleFns (pnt 0 (1/2))
          [pnt 0 0, pnt 0 1]).vertex_idx = some v →
      process_add_segment sampleFns [pnt 0 (1/2)] 100 [pnt 0 0, pnt 0 1] =
        List.take (v + 1) [pnt 0 0, pnt 0 1] ++
          [make_bare_point (pnt 0 (1/2)).latitude (pnt 0 (1/2)).longitude,
            duplicate_point (List.getD [pnt 0 0, pnt 0 1] v default)] ++
          List.drop (v + 1) [pnt 0 0, pnt 0 1]) ∧
    ((find_closest_on_segment sampleFns (pnt 0 (1/2))
          [pnt 0 0, pnt 0 1]).vertex_idx = none →
      process_add_segment sampleFns [pnt 0 (1/2)] 100 [pnt 0 0, pnt 0 1] =
        List.take ((find_closest_on_segment sampleFns (pnt 0 (1/2))
            [pnt 0 0, pnt 0 1]).seg_idx + 1) [pnt 0 0, pnt 0 1] ++
          [make_bare_point (find_closest_on_segment sampleFns (pnt 0 (1/2))
                [pnt 0 0, pnt 0 1]).plat
              (find_closest_on_segment sampleFns (pnt 0 (1/2))
                [pnt 0 0, pnt 0 1]).plon,
            make_bare_point (pnt 0 (1/2)).latitude (pnt 0 (1/2)).longitude,
            make_bare_point (find_closest_on_segment sampleFns (pnt 0 (1/2))
                [pnt 0 0, pnt 0 1]).plat
              (find_closest_on_segment sampleFns (pnt 0 (1/2))
                [pnt 0 0, pnt 0 1]).plon] ++
          List.drop ((find_closest_on_segment sampleFns (pnt 0 (1/2))
            [pnt 0 0, pnt 0 1]).seg_idx + 1) [pnt 0 0, pnt 0 1])) := by
  have hfc : find_closest_on_segment sampleFns (pnt 0 (1/2)) [pnt 0 0, pnt 0 1] =
      ⟨((0 : ℚ) : WithTop ℚ), 0, 0, 1/2, 1/2, none⟩ := by
    norm_num [find_closest_on_segment, scan_step, finish_classify, classify_vertex,
      project_onto_segment, haversine, radians, sampleFns, EARTH_RADIUS, pnt,
      List.range_succ]
  have hd : (find_closest_on_segment sampleFns (pnt 0 (1/2))
      [pnt 0 0, pnt 0 1]).dist ≤ ((100 : ℚ) : WithTop ℚ) := by
    rw [hfc]
    show ((0 : ℚ) : WithTop ℚ) ≤ ((100 : ℚ) : WithTop ℚ)
    exact_mod_cast (by norm_num : (0 : ℚ) ≤ 100)
  exact ⟨hd, claim1_add_insertion_content sampleFns 100 [pnt 0 0, pnt 0 1]
    (pnt 0 (1/2)) hd⟩

/-- C3: in move mode, for a waypoint within `maxdist` per `closestVertex`,
the run overwrites only the matched vertex's latitude and longitude with the
waypoint's coordinates; the segment's point count and every other attribute
of every point (elevation, time, metadata) are unchanged. -/
theorem claim3_move_overwrites_only_matched_vertex (F : MathFns ℚ) (maxdist : ℚ)
    (points : List GPXPoint) (w : GPXPoint)
    (hd : (find_closest_vertex F w points).1 ≤ (maxdist : WithTop ℚ)) :
    (process_move_segment F [w] maxdist points).length = points.length ∧
    (∀ j, j ≠ (find_closest_vertex F w points).2 →
      (process_move_segment F [w] maxdist points).getD j default =
        points.getD j default) ∧
    ((process_move_segment F [w] maxdist points).getD
        (find_closest_vertex F w points).2 default).latitude = w.latitude ∧
    ((process_move_segment F [w] maxdist points).getD
        (find_closest_vertex F w points).2 default).longitude = w.longitude ∧
    ((process_move_segment F [w] maxdist points).getD
        (find_closest_vertex F w points).2 default).elevation =
      (points.getD (find_closest_vertex F w points).2 default).elevation ∧
    ((process_move_segment F [w] maxdist points).getD
        (find_closest_vertex F w points).2 default).time =
      (points.getD (find_closest_vertex F w points).2 default).time ∧
    ((process_move_segment F [w] maxdist points).getD
        (find_closest_vertex F w points).2 default).ext =
      (points.getD (find_closest_vertex F w points).2 default).ext := by
  have hne : points ≠ [] := by
    intro hnil
    rw [hnil, find_closest_vertex_nil] at hd
    exact WithTop.coe_ne_top (top_le_iff.mp hd)
  have hlt : (find_closest_vertex F w points).2 < points.length :=
    find_closest_vertex_idx_lt F w points hne
  have hnot : ¬ ((find_closest_vertex F w points).1 > (maxdist : WithTop ℚ)) :=
    not_lt.mpr hd
  have hres : process_move_segment F [w] maxdist points =
      points.set (find_closest_vertex F w points).2
        { points.getD (find_closest_vertex F w points).2 default with
            latitude := w.latitude, longitude := w.longitude } := by
    simp only [process_move_segment, List.foldl_cons, List.foldl_nil, process_move_step]
    rw [if_neg hnot]
  have hget : (points.set (find_closest_vertex F w points).2
      { points.getD (find_closest_vertex F w points).2 default with
          latitude := w.latitude, longitude := w.longitude }).getD
        (find_closest_vertex F w points).2 default =
      { points.getD (find_closest_vertex F w points).2 default with
          latitude := w.latitude, longitude := w.longitude } := by
    simp [List.getD_eq_getElem?_getD, List.getElem?_set_self hlt]
  rw [hres]
  refine ⟨List.length_set _ _ _, ?_, ?_, ?_, ?_, ?_, ?_⟩
  · intro j hj
    simp [List.getD_eq_getElem?_getD, List.getElem?_set_ne (Ne.symm hj)]
  · rw [hget]
  · rw [hget]
  · rw [hget]
  · rw [hget]
  · rw [hget]

/-- Witness for C3: a concrete waypoint close to the first vertex of a
two-point segment, evaluated on the sample instantiation. -/
theorem claim3_move_overwrites_only_matched_vertex_witness :
    (find_closest_vertex sampleFns (pnt 0 (1/100)) [pnt 0 0, pnt 0 1]).1 ≤
      ((100 : ℚ) : WithTop ℚ) ∧
    ((process_move_segment sampleFns [pnt 0 (1/100)] 100
        [pnt 0 0, pnt 0 1]).length = (List.length [pnt 0 0, pnt 0 1]) ∧
    (∀ j, j ≠ (find_closest_vertex sampleFns (pnt 0 (1/100)) [pnt 0 0, pnt 0 1]).2 →
      (process_move_segment sampleFns [pnt 0 (1/100)] 100
          [pnt 0 0, pnt 0 1]).getD j default =
        List.getD [pnt 0 0, pnt 0 1] j default) ∧
    ((process_move_segment sampleFns [pnt 0 (1/100)] 100
        [pnt 0 0, pnt 0 1]).getD
        (find_closest_vertex sampleFns (pnt 0 (1/100)) [pnt 0 0, pnt 0 1]).2
        default).latitude = (pnt 0 (1/100)).latitude ∧
    ((process_move_segment sampleFns [pnt 0 (1/100)] 100
        [pnt 0 0, pnt 0 1]).getD
        (find_closest_vertex sampleFns (pnt 0 (1/100)) [pnt 0 0, pnt 0 1]).2
        default).longitude = (pnt 0 (1/100)).longitude ∧
    ((process_move_segment sampleFns [pnt 0 (1/100)] 100
        [pnt 0 0, pnt 0 1]).getD
        (find_closest_vertex sampleFns (pnt 0 (1/100)) [pnt 0 0, pnt 0 1]).2
        default).elevation =
      (List.getD [pnt 0 0, pnt 0 1]
        (find_closest_vertex sampleFns (pnt 0 (1/100)) [pnt 0 0, pnt 0 1]).2
        default).elevation ∧
    ((process_move_segment sampleFns [pnt 0 (1/100)] 100
        [pnt 0 0, pnt 0 1]).getD
        (find_closest_vertex sampleFns (pnt 0 (1/100)) [pnt 0 0, pnt 0 1]).2
        default).time =
      (List.getD [pnt 0 0, pnt 0 1]
        (find_closest_vertex sampleFns (pnt 0 (1/100)) [pnt 0 0, pnt 0 1]).2
        default).time ∧
    ((process_move_segment sampleFns [pnt 0 (1/100)] 100
        [pnt 0 0, pnt 0 1]).getD
        (find_closest_vertex sampleFns (pnt 0 (1/100)) [pnt 0 0, pnt 0 1]).2
        default).ext =
      (List.getD [pnt 0 0, pnt 0 1]
        (find_closest_vertex sampleFns (pnt 0 (1/100)) [pnt 0 0, pnt 0 1]).2
        default).ext) := by
  have hfv : find_closest_vertex sampleFns (pnt 0 (1/100)) [pnt 0 0, pnt 0 1] =
      (((6371/72000 : ℚ) : WithTop ℚ), 0) := by
    norm_num [find_closest_vertex, vertex_step, haversine, radians, sampleFns,
      EARTH_RADIUS, pnt, List.range_succ]
  have hd : (find_closest_vertex sampleFns (pnt 0 (1/100)) [pnt 0 0, pnt 0 1]).1 ≤
      ((100 : ℚ) : WithTop ℚ) := by
    rw [hfv]
    show ((6371/72000 : ℚ) : WithTop ℚ) ≤ ((100 : ℚ) : WithTop ℚ)
    exact_mod_cast (by norm_num : (6371/72000 : ℚ) ≤ 100)
  exact ⟨hd, claim3_move_overwrites_only_matched_vertex sampleFns 100
    [pnt 0 0, pnt 0 1] (pnt 0 (1/100)) hd⟩

lemma find_closest_on_segment_vertex_idx_classify (F : MathFns ℚ) (w : GPXPoint)
    (points : List GPXPoint) (hp : points ≠ []) :
    (find_closest_on_segment F w points).vertex_idx =
      classify_vertex F points (find_closest_on_segment F w points).seg_idx
        (find_closest_on_segment F w points).plat
        (find_closest_on_segment F w points).plon
        (find_closest_on_segment F w points).t := by
  match points, hp with
  | [p], _ =>
    rw [find_closest_on_segment_single]
    show some 0 = classify_vertex F [p] 0 p.latitude p.longitude 0
    unfold classify_vertex
    rw [if_pos (by norm_num : (0 : ℚ) < 1e-9)]
  | a :: b :: rest, _ =>
    rw [find_closest_on_segment_cons_cons]
    rfl

/-- C4: for every non-empty segment, the globally closest projected point is
classified as coinciding with a vertex exactly when `t` is below the `1e-9`
threshold of 0 (start vertex of the winning edge), above the `1e-9`
threshold of 1 (end vertex), or the projected point lies within 0.05 meters
of either endpoint of that edge; otherwise no vertex index is reported.
In particular `t = 0` and `t = 1` always classify as vertex matches. -/
theorem claim4_vertex_classification (F : MathFns ℚ) (w : GPXPoint)
    (points : List GPXPoint) (hp : points ≠ []) :
    ((find_closest_on_segment F w points).vertex_idx.isSome ↔
      ((find_closest_on_segment F w points).t < 1e-9 ∨
        (find_closest_on_segment F w points).t > 1 - 1e-9 ∨
        haversine F (find_closest_on_segment F w points).plat
          (find_closest_on_segment F w points).plon
          (points.getD (find_closest_on_segment F w points).seg_idx default).latitude
          (points.getD (find_closest_on_segment F w points).seg_idx default).longitude
          < 0.05 ∨
        haversine F (find_closest_on_segment F w points).plat
          (find_closest_on_segment F w points).plon
          (points.getD ((find_closest_on_segment F w points).seg_idx + 1) default).latitude
          (points.getD ((find_closest_on_segment F w points).seg_idx + 1) default).longitude
          < 0.05)) ∧
    ((find_closest_on_segment F w points).t < 1e-9 →
      (find_closest_on_segment F w points).vertex_idx =
        some (find_closest_on_segment F w points).seg_idx) ∧
    ((find_closest_on_segment F w points).t > 1 - 1e-9 →
      (find_closest_on_segment F w points).vertex_idx =
        some ((find_closest_on_segment F w points).seg_idx + 1)) ∧
    ((find_closest_on_segment F w points).t = 0 →
      (find_closest_on_segment F w points).vertex_idx =
        some (find_closest_on_segment F w points).seg_idx) ∧
    ((find_closest_on_segment F w points).t = 1 →
      (find_closest_on_segment F w points).vertex_idx =
        some ((find_closest_on_segment F w points).seg_idx + 1)) := by
  rw [find_closest_on_segment_vertex_idx_classify F w points hp]
  simp only [classify_vertex]
  split_ifs with h1 h2 h3 h4
  · exact ⟨by simp [h1], fun _ => rfl,
      fun ht => absurd (lt_trans ht h1) (by norm_num),
      fun _ => rfl,
      fun ht => absurd (ht ▸ h1) (by norm_num)⟩
  · exact ⟨by simp [h2], fun ht => absurd ht h1, fun _ => rfl,
      fun ht => absurd (by norm_num : (0 : ℚ) < 1e-9) (ht ▸ h1),
      fun _ => rfl⟩
  · exact ⟨Iff.intro (fun _ => Or.inr (Or.inr (Or.inl h3))) (fun _ => rfl),
      fun ht => absurd ht h1, fun ht => absurd ht h2,
      fun ht => absurd (by norm_num : (0 : ℚ) < 1e-9) (ht ▸ h1),
      fun ht => absurd (by norm_num : (1 : ℚ) > 1 - 1e-9) (ht ▸ h2)⟩
  · exact ⟨Iff.intro (fun _ => Or.inr (Or.inr (Or.inr h4))) (fun _ => rfl),
      fun ht => absurd ht h1, fun ht => absurd ht h2,
      fun ht => absurd (by norm_num : (0 : ℚ) < 1e-9) (ht ▸ h1),
      fun ht => absurd (by norm_num : (1 : ℚ) > 1 - 1e-9) (ht ▸ h2)⟩
  · exact ⟨Iff.intro (fun hs => by simp at hs)
        (fun hor => by
          rcases hor with h | h | h | h
          exacts [absurd h h1, absurd h h2, absurd h h3, absurd h h4]),
      fun ht => absurd ht h1, fun ht => absurd ht h2,
      fun ht => absurd (by norm_num : (0 : ℚ) < 1e-9) (ht ▸ h1),
      fun ht => absurd (by norm_num : (1 : ℚ) > 1 - 1e-9) (ht ▸ h2)⟩

/-- Witness for C4: a concrete two-point segment with a waypoint projecting
strictly between the vertices, evaluated on the sample instantiation. -/
theorem claim4_vertex_classification_witness :
    ([pnt 0 0, pnt 0 1] : List GPXPoint) ≠ [] ∧
    (((find_closest_on_segment sampleFns (pnt 0 (1/2))
        [pnt 0 0, pnt 0 1]).vertex_idx.isSome ↔
      ((find_closest_on_segment sampleFns (pnt 0 (1/2)) [pnt 0 0, pnt 0 1]).t < 1e-9 ∨
        (find_closest_on_segment sampleFns (pnt 0 (1/2)) [pnt 0 0, pnt 0 1]).t >
          1 - 1e-9 ∨
        haversine sampleFns
          (find_closest_on_segment sampleFns (pnt 0 (1/2)) [pnt 0 0, pnt 0 1]).plat
          (find_closest_on_segment sampleFns (pnt 0 (1/2)) [pnt 0 0, pnt 0 1]).plon
          (List.getD [pnt 0 0, pnt 0 1]
            (find_closest_on_segment sampleFns (pnt 0 (1/2))
              [pnt 0 0, pnt 0 1]).seg_idx default).latitude
          (List.getD [pnt 0 0, pnt 0 1]
            (find_closest_on_segment sampleFns (pnt 0 (1/2))
              [pnt 0 0, pnt 0 1]).seg_idx default).longitude < 0.05 ∨
        haversine sampleFns
          (find_closest_on_segment sampleFns (pnt 0 (1/2)) [pnt 0 0, pnt 0 1]).plat
          (find_closest_on_segment sampleFns (pnt 0 (1/2)) [pnt 0 0, pnt 0 1]).plon
          (List.getD [pnt 0 0, pnt 0 1]
            ((find_closest_on_segment sampleFns (pnt 0 (1/2))
              [pnt 0 0, pnt 0 1]).seg_idx + 1) default).latitude
          (List.getD [pnt 0 0, pnt 0 1]
            ((find_closest_on_segment sampleFns (pnt 0 (1/2))
              [pnt 0 0, pnt 0 1]).seg_idx + 1) default).longitude < 0.05)) ∧
    ((find_closest_on_segment sampleFns (pnt 0 (1/2)) [pnt 0 0, pnt 0 1]).t < 1e-9 →
      (find_closest_on_segment sampleFns (pnt 0 (1/2)) [pnt 0 0, pnt 0 1]).vertex_idx =
        some (find_closest_on_segment sampleFns (pnt 0 (1/2))
          [pnt 0 0, pnt 0 1]).seg_idx) ∧
    ((find_closest_on_segment sampleFns (pnt 0 (1/2)) [pnt 0 0, pnt 0 1]).t >
        1 - 1e-9 →
      (find_closest_on_segment sampleFns (pnt 0 (1/2)) [pnt 0 0, pnt 0 1]).vertex_idx =
        some ((find_closest_on_segment sampleFns (pnt 0 (1/2))
          [pnt 0 0, pnt 0 1]).seg_idx + 1)) ∧
    ((find_closest_on_segment sampleFns (pnt 0 (1/2)) [pnt 0 0, pnt 0 1]).t = 0 →
      (find_closest_on_segment sampleFns (pnt 0 (1/2)) [pnt 0 0, pnt 0 1]).vertex_idx =
        some (find_closest_on_segment sampleFns (pnt 0 (1/2))
          [pnt 0 0, pnt 0 1]).seg_idx) ∧
    ((find_closest_on_segment sampleFns (pnt 0 (1/2)) [pnt 0 0, pnt 0 1]).t = 1 →
      (find_closest_on_segment sampleFns (pnt 0 (1/2)) [pnt 0 0, pnt 0 1]).vertex_idx =
        some ((find_closest_on_segment sampleFns (pnt 0 (1/2))
          [pnt 0 0, pnt 0 1]).seg_idx + 1))) :=
  ⟨by simp, claim4_vertex_classification sampleFns (pnt 0 (1/2))
    [pnt 0 0, pnt 0 1] (by simp)⟩

lemma sin_sq_neg_swap (x y : ℝ) :
    Real.sin ((x - y) / 2) ^ 2 = Real.sin ((y - x) / 2) ^ 2 := by
  rw [show (x - y) / 2 = -((y - x) / 2) by ring, Real.sin_neg]
  ring

/-- C7 (amended): with ideal real-number trigonometry the haversine distance
is always nonnegative, symmetric, and zero on identical coordinates.  The
original claim's "zero iff coordinates equal" fails (see the
counterexample): distinct coordinate pairs can have distance zero. -/
theorem claim7_distance_metric_amended (lat1 lon1 lat2 lon2 : ℝ) :
    0 ≤ haversineR lat1 lon1 lat2 lon2 ∧
    haversineR lat1 lon1 lat2 lon2 = haversineR lat2 lon2 lat1 lon1 ∧
    haversineR lat1 lon1 lat1 lon1 = 0 := by
  refine ⟨?_, ?_, ?_⟩
  · unfold haversineR haversine
    simp only [realFns]
    exact mul_nonneg (by norm_num [EARTH_RADIUS])
      (Real.arcsin_nonneg.mpr (Real.sqrt_nonneg _))
  · unfold haversineR haversine radians
    simp only [realFns]
    congr 1
    congr 1
    congr 1
    rw [sin_sq_neg_swap (lat2 * Real.pi / 180) (lat1 * Real.pi / 180),
      sin_sq_neg_swap (lon2 * Real.pi / 180) (lon1 * Real.pi / 180)]
    ring
  · unfold haversineR haversine radians
    simp only [realFns]
    simp [sub_self, Real.sin_zero, Real.sqrt_zero, Real.arcsin_zero]

/-- Counterexample to C7 as stated: the two coordinate pairs `(0, 0)` and
`(0, 360)` are unequal, yet their haversine distance is exactly zero (the
longitudes differ by a full turn), so "distance zero iff coordinates equal"
fails on the code's distance function. -/
theorem claim7_distance_metric_counterexample :
    haversineR 0 0 0 360 = 0 ∧ ¬ ((0 : ℝ) = 0 ∧ (0 : ℝ) = 360) := by
  constructor
  · unfold haversineR haversine radians
    simp only [realFns]
    rw [show ((360 : ℝ) * Real.pi / 180 - 0 * Real.pi / 180) / 2 = Real.pi by ring]
    simp [Real.sin_pi, Real.sin_zero, Real.sqrt_zero, Real.arcsin_zero]
  · intro h
    exact absurd h.2 (by norm_num)

end GpxSnap
